import Mathlib

/-!
Verification of the neural-network core of the VisNet repository
(`src/services/neuralNet.ts`): the `MiniNeuralNet` engine (forward
propagation, backpropagation, mini-batch accumulation, snapshot
projection) and the dataset generator `generateData`.

JavaScript numbers are modelled as real numbers; `Math.random()` draws
are modelled as explicitly supplied value streams.  Nested mutable
arrays become lists, with out-of-range reads modelled by `List.getD`
(the shape invariants maintained by the constructor keep every read
performed by the code in range).
-/

noncomputable section

namespace VisNet

/-- `ActivationType` from `src/types` (a TS string enum with exactly
these three members). -/
inductive ActivationType where
  | SIGMOID
  | RELU
  | TANH
deriving DecidableEq, Inhabited

/-- `DatasetType` from `src/types`. -/
inductive DatasetType where
  | XOR
  | CIRCLE
  | QUADRANTS
deriving DecidableEq, Inhabited

/-- `LayerConfig` from `src/types`: neuron count and activation kind. -/
structure LayerConfig where
  neurons : ℕ
  activation : ActivationType
deriving DecidableEq, Inhabited

/-- `sigmoid(x) = 1 / (1 + Math.exp(-x))`. -/
def sigmoid (x : ℝ) : ℝ := 1 / (1 + Real.exp (-x))

/-- `sigmoidDerivative(x) = x * (1 - x)`. -/
def sigmoidDerivative (x : ℝ) : ℝ := x * (1 - x)

/-- `relu(x) = Math.max(0, x)`. -/
def relu (x : ℝ) : ℝ := max 0 x

/-- `reluDerivative(x) = x > 0 ? 1 : 0`. -/
def reluDerivative (x : ℝ) : ℝ := if x > 0 then 1 else 0

/-- `tanh(x) = Math.tanh(x)`. -/
def tanh (x : ℝ) : ℝ := Real.tanh x

/-- `tanhDerivative(x) = 1 - x * x`. -/
def tanhDerivative (x : ℝ) : ℝ := 1 - x * x

/-- The activation dispatch used in `forward` (the `switch` on
`layerConfig.activation`). -/
def applyActivation : ActivationType → ℝ → ℝ
  | ActivationType.SIGMOID, x => sigmoid x
  | ActivationType.RELU, x => relu x
  | ActivationType.TANH, x => tanh x

/-- The derivative dispatch used in both `switch` blocks of `train`:
Sigmoid and Tanh evaluate their derivative on the activation value `a`,
ReLU on the pre-activation value `z`. -/
def activationPrime (t : ActivationType) (z a : ℝ) : ℝ :=
  match t with
  | ActivationType.SIGMOID => sigmoidDerivative a
  | ActivationType.RELU => reluDerivative z
  | ActivationType.TANH => tanhDerivative a

/-- A labeled sample as produced by `generateData`
(`{ inputs: number[], target: number[] }`). -/
structure DataPoint where
  inputs : List ℝ
  target : List ℝ

/-- The eight fixed XOR points pushed by the first branch of
`generateData`. -/
def xorData : List DataPoint :=
  [⟨[0.1, 0.1], [0]⟩, ⟨[0.9, 0.1], [1]⟩, ⟨[0.1, 0.9], [1]⟩, ⟨[0.9, 0.9], [0]⟩,
   ⟨[0.2, 0.2], [0]⟩, ⟨[0.8, 0.2], [1]⟩, ⟨[0.2, 0.8], [1]⟩, ⟨[0.8, 0.8], [0]⟩]

/-- The Quadrants branch of `generateData` (`for(let i=0; i<8; i++)`,
a hard-coded 8).  `rand` supplies the successive `Math.random()` draws,
two per point (first x, then y). -/
def quadrantsData (rand : ℕ → ℝ) : List DataPoint :=
  (List.range 8).map (fun (i : ℕ) =>
    let x := (if i % 2 = 0 then (-1 : ℝ) else 1) * (0.5 + rand (2 * i) * 0.4)
    let y := rand (2 * i + 1) * 2 - 1
    ⟨[x, y], [if x > 0 then 1 else 0]⟩)

/-- The Circle branch of `generateData` (`for(let i=0; i<8; i++)`, a
hard-coded 8). -/
def circleData : List DataPoint :=
  (List.range 8).map (fun (i : ℕ) =>
    let angle := ((i : ℝ) / 8) * Real.pi * 2
    let r : ℝ := if i % 2 = 0 then 0.3 else 0.9
    ⟨[Real.cos angle * r, Real.sin angle * r], [if r < 0.5 then 1 else 0]⟩)

/-- `generateData` from `src/services/neuralNet.ts`.  The `count`
parameter mirrors the TS signature (`count: number = 8`); the function
body never reads it.  Any selector other than XOR and QUADRANTS falls
into the final `else` (Circle) branch. -/
def generateData (type : DatasetType) (_count : ℕ := 8) (rand : ℕ → ℝ) :
    List DataPoint :=
  if type = DatasetType.XOR then xorData
  else if type = DatasetType.QUADRANTS then quadrantsData rand
  else circleData

/-- `generateData` at the JavaScript runtime level: the members of the
TS string enum `DatasetType` are the strings `"XOR"`, `"CIRCLE"`,
`"QUADRANTS"`, and at runtime the `if`/`else if` chain compares the
supplied selector string against them, so any other string reaches the
final `else` (Circle) branch. -/
def generateDataRT (type : String) (_count : ℕ := 8) (rand : ℕ → ℝ) :
    List DataPoint :=
  if type = "XOR" then xorData
  else if type = "QUADRANTS" then quadrantsData rand
  else circleData

/-- The activation `switch` of `forward` at the JavaScript runtime
level: `ActivationType` is a TS string enum (`"SIGMOID"`, `"RELU"`,
`"TANH"`); `let val = 0` is followed by a `switch` with no `default`
case, so any other string leaves `val` at `0`. -/
def applyActivationRT (t : String) (x : ℝ) : ℝ :=
  if t = "SIGMOID" then sigmoid x
  else if t = "RELU" then relu x
  else if t = "TANH" then tanh x
  else 0

/-- The mutable state of a `MiniNeuralNet` instance.  `weights` is
indexed `[layer][from][to]`, `biases` `[layer][neuron]`; the four
visualization arrays and the two batch accumulators mirror the TS
fields. -/
structure Net where
  layers : List LayerConfig
  weights : List (List (List ℝ))
  biases : List (List ℝ)
  activations : List (List ℝ)
  preActivations : List (List ℝ)
  neuronGradients : List (List ℝ)
  weightGradients : List (List (List ℝ))
  learningRate : ℝ
  batchSize : ℕ
  currentBatchCount : ℕ
  accWeightGradients : List (List (List ℝ))
  accBiasGradients : List (List ℝ)

/-- `l.map(n => new Array(n.length).fill(0))` on a weight-shaped
3-level array: a zero tensor of the same shape. -/
def zeroWeightShape (ws : List (List (List ℝ))) : List (List (List ℝ)) :=
  ws.map (fun l => l.map (fun n => List.replicate n.length (0 : ℝ)))

/-- Zero vector list of the same shape as a bias array. -/
def zeroBiasShape (bs : List (List ℝ)) : List (List ℝ) :=
  bs.map (fun l => List.replicate l.length (0 : ℝ))

/-- `MiniNeuralNet.resetAccumulators`: zero both accumulators (shaped
like the current weights/biases) and the batch counter. -/
def Net.resetAccumulators (net : Net) : Net :=
  { net with
    accWeightGradients := zeroWeightShape net.weights
    accBiasGradients := zeroBiasShape net.biases
    currentBatchCount := 0 }

/-- `MiniNeuralNet.updateConfig`: replace the learning rate
unconditionally; on a batch-size change install the new size, zero the
counter and reset the accumulators. -/
def Net.updateConfig (net : Net) (learningRate : ℝ) (batchSize : ℕ) : Net :=
  let net1 := { net with learningRate := learningRate }
  if net1.batchSize ≠ batchSize then
    ({ net1 with batchSize := batchSize, currentBatchCount := 0 }).resetAccumulators
  else net1

/-- `MiniNeuralNet` constructor together with `initializeWeights`.
The `Math.random()` draws are supplied as explicit sources: `randW i j k`
is the raw uniform draw for the weight from neuron `j` of layer `i` to
neuron `k` of layer `i+1` (the code maps it through `r*2-1`), and
`randB i k` the raw draw for the bias of neuron `k` of layer `i+1`
(mapped through `r-0.5`).  The forward-state arrays start empty, the
gradient holders zero-filled, and `resetAccumulators` builds the
accumulators from the freshly built weight/bias shapes. -/
def mkNet (layers : List LayerConfig) (learningRate : ℝ) (batchSize : ℕ)
    (randW : ℕ → ℕ → ℕ → ℝ) (randB : ℕ → ℕ → ℝ) : Net :=
  let weights := (List.range (layers.length - 1)).map (fun i =>
    (List.range (layers.getD i default).neurons).map (fun j =>
      (List.range (layers.getD (i + 1) default).neurons).map (fun k =>
        randW i j k * 2 - 1)))
  let weightGradients := (List.range (layers.length - 1)).map (fun i =>
    (List.range (layers.getD i default).neurons).map (fun _ =>
      List.replicate (layers.getD (i + 1) default).neurons (0 : ℝ)))
  let biases := (List.range (layers.length - 1)).map (fun i =>
    (List.range (layers.getD (i + 1) default).neurons).map (fun k =>
      randB i k - 0.5))
  let neuronGradients :=
    List.replicate (layers.getD 0 default).neurons (0 : ℝ) ::
      (List.range (layers.length - 1)).map (fun i =>
        List.replicate (layers.getD (i + 1) default).neurons (0 : ℝ))
  Net.resetAccumulators
    { layers := layers
      weights := weights
      biases := biases
      activations := []
      preActivations := []
      neuronGradients := neuronGradients
      weightGradients := weightGradients
      learningRate := learningRate
      batchSize := batchSize
      currentBatchCount := 0
      accWeightGradients := []
      accBiasGradients := [] }

/-- The inner neuron loop of `forward`: `let sum = layerBiases[j];
for (k) sum += currentActivations[k] * layerWeights[k][j]`. -/
def neuronZ (b : ℝ) (prev : List ℝ) (w : List (List ℝ)) (j : ℕ) : ℝ :=
  (List.range prev.length).foldl
    (fun sum k => sum + prev.getD k 0 * ((w.getD k []).getD j 0)) b

/-- Zip of the per-step data of `forward`'s layer loop: at step `i` the
code reads `this.weights[i]`, `this.biases[i]` and
`this.layers[i + 1]`. -/
def zip3 : List α → List β → List γ → List (α × β × γ)
  | a :: as, b :: bs, c :: cs => (a, b, c) :: zip3 as bs cs
  | _, _, _ => []

/-- The layer loop of `forward`: from the running activation vector and
the list of (weights, biases, layer-config) per non-input layer,
produce the pushed pre-activation vectors, the pushed activation
vectors, and the final `currentActivations`. -/
def forwardLayers (cur : List ℝ) :
    List (List (List ℝ) × List ℝ × LayerConfig) →
      List (List ℝ) × List (List ℝ) × List ℝ
  | [] => ([], [], cur)
  | (w, b, cfg) :: rest =>
    let zs := (List.range cfg.neurons).map (fun j => neuronZ (b.getD j 0) cur w j)
    let as := zs.map (applyActivation cfg.activation)
    let r := forwardLayers as rest
    (zs :: r.1, as :: r.2.1, r.2.2)

/-- `MiniNeuralNet.forward`: replace the forward state with freshly
computed `z`/`a` vectors (input layer: both are the raw inputs) and
return the final layer's activations. -/
def Net.forward (net : Net) (inputs : List ℝ) : Net × List ℝ :=
  let r := forwardLayers inputs (zip3 net.weights net.biases (net.layers.drop 1))
  ({ net with
      activations := inputs :: r.2.1
      preActivations := inputs :: r.1 },
    r.2.2)

/-- The backward recurrence of `train`: `deltaAt ws cfgs zss ass dOut L i`
is the error-term vector of layer `i`, where `L = ws.length` is the
output-layer index; `dOut` is the output-layer vector, and a hidden
layer `i` combines the next layer's vector with `this.weights[i]` and
its own activation derivative (`errorSum * activationPrime`). -/
def deltaAt (ws : List (List (List ℝ))) (cfgs : List LayerConfig)
    (zss ass : List (List ℝ)) (dOut : List ℝ) (L : ℕ) (i : ℕ) : List ℝ :=
  if _h : L ≤ i then dOut
  else
    let dNext := deltaAt ws cfgs zss ass dOut L (i + 1)
    (List.range (cfgs.getD i default).neurons).map (fun j =>
      ((List.range (cfgs.getD (i + 1) default).neurons).foldl
        (fun s k => s + dNext.getD k 0 * ((ws.getD i []).getD j []).getD k 0) 0) *
      activationPrime (cfgs.getD i default).activation
        ((zss.getD i []).getD j 0) ((ass.getD i []).getD j 0))
termination_by L - i
decreasing_by omega

/-- Step 2 of `train`: the output-layer error terms
`(outputs[i] - targets[i]) * activationPrime`, the derivative being
evaluated on the stored pre-activation `z` and the prediction
`outputs[i]` of the output layer (`outputLayerIdx = layers.length - 1`). -/
def trainDOut (net : Net) (inputs targets : List ℝ) : List ℝ :=
  let net1 := (net.forward inputs).1
  let outputs := (net.forward inputs).2
  let outIdx := net1.layers.length - 1
  (List.range outputs.length).map (fun i =>
    (outputs.getD i 0 - targets.getD i 0) *
      activationPrime (net1.layers.getD outIdx default).activation
        ((net1.preActivations.getD outIdx []).getD i 0) (outputs.getD i 0))

/-- The error-term vector of layer `i` computed by `train`'s backward
loop on the forward state of this call. -/
def trainDelta (net : Net) (inputs targets : List ℝ) (i : ℕ) : List ℝ :=
  let net1 := (net.forward inputs).1
  deltaAt net1.weights net1.layers net1.preActivations net1.activations
    (trainDOut net inputs targets) net1.weights.length i

/-- The `neuronGradients` state after a `train` call: reset to
zero-filled per-layer vectors, layer 0 left at zero, every other layer
overwritten with its error-term vector. -/
def trainNG (net : Net) (inputs targets : List ℝ) : List (List ℝ) :=
  let net1 := (net.forward inputs).1
  (List.range net1.layers.length).map (fun i =>
    if i = 0 then List.replicate (net1.layers.getD 0 default).neurons (0 : ℝ)
    else trainDelta net inputs targets i)

/-- The per-sample weight gradients of a `train` call:
`dE/dw = delta_next[k] * a_prev[j]` over the weight shape. -/
def trainWG (net : Net) (inputs targets : List ℝ) : List (List (List ℝ)) :=
  let net1 := (net.forward inputs).1
  (List.range net1.weights.length).map (fun i =>
    (List.range (net1.weights.getD i []).length).map (fun j =>
      (List.range ((net1.weights.getD i []).getD j []).length).map (fun k =>
        (trainDelta net inputs targets (i + 1)).getD k 0 *
          (net1.activations.getD i []).getD j 0)))

/-- The weight-gradient accumulators after the accumulation step of a
`train` call (`accWeightGradients[i][j][k] += gradient`). -/
def trainAccW (net : Net) (inputs targets : List ℝ) : List (List (List ℝ)) :=
  let net1 := (net.forward inputs).1
  (List.range net1.weights.length).map (fun i =>
    (List.range (net1.weights.getD i []).length).map (fun j =>
      (List.range ((net1.weights.getD i []).getD j []).length).map (fun k =>
        ((net1.accWeightGradients.getD i []).getD j []).getD k 0 +
          (trainDelta net inputs targets (i + 1)).getD k 0 *
            (net1.activations.getD i []).getD j 0)))

/-- The bias-gradient accumulators after the accumulation step of a
`train` call (`accBiasGradients[i][k] += delta_next[k]`; the loop runs
over the weight layers, and by the constructor's shape invariant
`biases.length = weights.length`). -/
def trainAccB (net : Net) (inputs targets : List ℝ) : List (List ℝ) :=
  let net1 := (net.forward inputs).1
  (List.range net1.weights.length).map (fun i =>
    (List.range (net1.biases.getD i []).length).map (fun k =>
      (net1.accBiasGradients.getD i []).getD k 0 +
        (trainDelta net inputs targets (i + 1)).getD k 0))

/-- The averaged weight update of `train`'s batch step:
`weights[i][j][k] -= learningRate * (accWeightGradients[i][j][k] * (1/batchSize))`. -/
def updW (net : Net) (inputs targets : List ℝ) : List (List (List ℝ)) :=
  (List.range net.weights.length).map (fun i =>
    (List.range (net.weights.getD i []).length).map (fun j =>
      (List.range ((net.weights.getD i []).getD j []).length).map (fun k =>
        ((net.weights.getD i []).getD j []).getD k 0 -
          net.learningRate * ((((trainAccW net inputs targets).getD i []).getD j []).getD k 0 *
            (1 / (net.batchSize : ℝ))))))

/-- The averaged bias update of `train`'s batch step:
`biases[i][k] -= learningRate * (accBiasGradients[i][k] * (1/batchSize))`. -/
def updB (net : Net) (inputs targets : List ℝ) : List (List ℝ) :=
  (List.range net.weights.length).map (fun i =>
    (List.range (net.biases.getD i []).length).map (fun k =>
      (net.biases.getD i []).getD k 0 -
        net.learningRate * (((trainAccB net inputs targets).getD i []).getD k 0 *
          (1 / (net.batchSize : ℝ)))))

/-- `MiniNeuralNet.train`: forward pass, per-sample gradients via
backpropagation (`trainNG`/`trainWG`), accumulation into the batch
accumulators (`trainAccW`/`trainAccB`), counter increment, and — once
the incremented counter reaches the batch size — the averaged update
(`updW`/`updB`) followed by `resetAccumulators`.  Returns the forward
pass's prediction. -/
def Net.train (net : Net) (inputs targets : List ℝ) : Net × List ℝ :=
  let net1 := (net.forward inputs).1
  let net2 := { net1 with
    neuronGradients := trainNG net inputs targets
    weightGradients := trainWG net inputs targets
    accWeightGradients := trainAccW net inputs targets
    accBiasGradients := trainAccB net inputs targets
    currentBatchCount := net1.currentBatchCount + 1 }
  if net2.batchSize ≤ net2.currentBatchCount then
    (({ net2 with
        weights := updW net inputs targets
        biases := updB net inputs targets }).resetAccumulators,
      (net.forward inputs).2)
  else (net2, (net.forward inputs).2)

/-- A sequence of consecutive `train` calls (the driver loop),
discarding the returned predictions. -/
def Net.trainMany (net : Net) (samples : List (List ℝ × List ℝ)) : Net :=
  samples.foldl (fun n s => (n.train s.1 s.2).1) net

/-- The per-sample weight-gradient tensor recorded by the `t`-th of a
run of consecutive `train` calls (the `weightGradients` field right
after that call). -/
def sampleWeightGrad (net : Net) (samples : List (List ℝ × List ℝ)) (t : ℕ) :
    List (List (List ℝ)) :=
  ((net.trainMany (samples.take t)).train
      (samples.getD t ([], [])).1 (samples.getD t ([], [])).2).1.weightGradients

/-- The per-sample bias gradient vector list recorded by the `t`-th of
a run of consecutive `train` calls: for every non-input layer, the
error-term vector `δ` of that layer (the quantity added to
`accBiasGradients`).  Read off as `neuronGradients.drop 1` of the
post-call state. -/
def sampleBiasGrad (net : Net) (samples : List (List ℝ × List ℝ)) (t : ℕ) :
    List (List ℝ) :=
  (((net.trainMany (samples.take t)).train
      (samples.getD t ([], [])).1 (samples.getD t ([], [])).2).1.neuronGradients).drop 1

/-- `Neuron` from `src/types`: one visualization record per neuron. -/
structure VNeuron where
  id : String
  layerIndex : ℕ
  neuronIndex : ℕ
  activation : ℝ
  preActivation : ℝ
  bias : ℝ
  gradient : ℝ
  position : ℝ × ℝ × ℝ
deriving Inhabited

/-- `Connection` from `src/types`: one record per weight. -/
structure VConnection where
  id : String
  sourceId : String
  targetId : String
  weight : ℝ
  gradient : ℝ
  sourcePos : ℝ × ℝ × ℝ
  targetPos : ℝ × ℝ × ℝ

/-- The neuron list built by `MiniNeuralNet.getVisualizationData`.
`this.activations[i] ? this.activations[i][j] : 0` is modelled by the
index test against the array length (a fresh engine has empty forward
state, so the test fails and 0 is reported). -/
def visNeurons (net : Net) : List VNeuron :=
  (List.range net.layers.length).flatMap (fun (i : ℕ) =>
    let layerCount := (net.layers.getD i default).neurons
    let x := ((i : ℝ) - ((net.layers.length : ℝ) - 1) / 2) * 6
    (List.range layerCount).map (fun (j : ℕ) =>
      let y := ((j : ℝ) - ((layerCount : ℝ) - 1) / 2) * 2
      { id := "l" ++ toString i ++ "-n" ++ toString j
        layerIndex := i
        neuronIndex := j
        activation :=
          if i < net.activations.length then (net.activations.getD i []).getD j 0
          else 0
        preActivation :=
          if i < net.preActivations.length then
            (net.preActivations.getD i []).getD j 0
          else 0
        bias := if 0 < i then (net.biases.getD (i - 1) []).getD j 0 else 0
        gradient :=
          if i < net.neuronGradients.length then
            (net.neuronGradients.getD i []).getD j 0
          else 0
        position := (x, y, 0) }))

/-- The connection list built by `MiniNeuralNet.getVisualizationData`:
for each weight layer, pair the neurons of the source and target layers
(recovered by filtering the neuron list on `layerIndex`, as the code
does). -/
def visConnections (net : Net) (neurons : List VNeuron) : List VConnection :=
  (List.range net.weights.length).flatMap (fun i =>
    let sourceNeurons := neurons.filter (fun n => n.layerIndex = i)
    let targetNeurons := neurons.filter (fun n => n.layerIndex = i + 1)
    (List.range sourceNeurons.length).flatMap (fun j =>
      (List.range targetNeurons.length).map (fun k =>
        { id := "c-l" ++ toString i ++ "n" ++ toString j ++ "-l" ++
            toString (i + 1) ++ "n" ++ toString k
          sourceId := (sourceNeurons.getD j default).id
          targetId := (targetNeurons.getD k default).id
          weight := ((net.weights.getD i []).getD j []).getD k 0
          gradient :=
            if i < net.weightGradients.length then
              ((net.weightGradients.getD i []).getD j []).getD k 0
            else 0
          sourcePos := (sourceNeurons.getD j default).position
          targetPos := (targetNeurons.getD k default).position })))

/-- `MiniNeuralNet.getVisualizationData` (the snapshot operation). -/
def Net.getVisualizationData (net : Net) : List VNeuron × List VConnection :=
  let neurons := visNeurons net
  (neurons, visConnections net neurons)

/-- A tiny concretely constructed engine (1 input neuron, 1 ReLU
output neuron, learning rate 0.1, batch size 1) used to instantiate
hypothesis-bearing theorems. -/
def testNet : Net :=
  mkNet [⟨1, ActivationType.RELU⟩, ⟨1, ActivationType.RELU⟩] 0.1 1
    (fun _ _ _ => 1) (fun _ _ => 0.5)

/-- Like `testNet` but with batch size 2 and a Sigmoid output layer. -/
def testNet2 : Net :=
  mkNet [⟨1, ActivationType.SIGMOID⟩, ⟨1, ActivationType.SIGMOID⟩] 0.1 2
    (fun _ _ _ => 1) (fun _ _ => 0.5)

/-! ### General lemmas about the indexed loops -/

theorem getD_map {α β : Type} (f : α → β) (l : List α) (j : ℕ) (d : β) (d0 : α)
    (h : j < l.length) : (l.map f).getD j d = f (l.getD j d0) := by
  rw [List.getD_eq_getElem?_getD, List.getD_eq_getElem?_getD, List.getElem?_map]
  rw [List.getElem?_eq_getElem h]
  simp

theorem getD_drop {α : Type} (l : List α) (n i : ℕ) (d : α) :
    (l.drop n).getD i d = l.getD (n + i) d := by
  rw [List.getD_eq_getElem?_getD, List.getD_eq_getElem?_getD, List.getElem?_drop]

theorem zip3_length {α β γ : Type} :
    ∀ (as : List α) (bs : List β) (cs : List γ),
      as.length = bs.length → bs.length = cs.length →
      (zip3 as bs cs).length = as.length
  | [], [], [], _, _ => rfl
  | [], [], _ :: _, _, h2 => by simp at h2
  | [], _ :: _, _, h1, _ => by simp at h1
  | _ :: _, [], _, h1, _ => by simp at h1
  | _ :: _, _ :: _, [], _, h2 => by simp at h2
  | a :: as, b :: bs, c :: cs, h1, h2 => by
    simp only [zip3, List.length_cons]
    rw [zip3_length as bs cs (by simpa using h1) (by simpa using h2)]

theorem zip3_getD {α β γ : Type} (d1 : α) (d2 : β) (d3 : γ) :
    ∀ (as : List α) (bs : List β) (cs : List γ) (i : ℕ),
      i < as.length → i < bs.length → i < cs.length →
      (zip3 as bs cs).getD i (d1, d2, d3) =
        (as.getD i d1, bs.getD i d2, cs.getD i d3)
  | a :: as, b :: bs, c :: cs, 0, _, _, _ => rfl
  | a :: as, b :: bs, c :: cs, i + 1, h1, h2, h3 => by
    simp only [zip3, List.getD_cons_succ]
    exact zip3_getD d1 d2 d3 as bs cs i (by simpa using h1) (by simpa using h2)
      (by simpa using h3)
  | [], _, _, i, h1, _, _ => by simp at h1
  | _ :: _, [], _, i, _, h2, _ => by simp at h2
  | _ :: _, _ :: _, [], i, _, _, h3 => by simp at h3

theorem getD_range_map {α : Type} (f : ℕ → α) (n i : ℕ) (d : α) (h : i < n) :
    ((List.range n).map f).getD i d = f i := by
  rw [List.getD_eq_getElem?_getD]
  simp [List.getElem?_map, List.getElem?_range, h]

theorem foldl_range_add (f : ℕ → ℝ) (n : ℕ) (b : ℝ) :
    (List.range n).foldl (fun s k => s + f k) b = b + ∑ k ∈ Finset.range n, f k := by
  induction n generalizing b with
  | zero => simp
  | succ m ih =>
    rw [List.range_succ, List.foldl_append, ih, Finset.sum_range_succ]
    simp [add_assoc]

/-! ### Zero-filled nested structures -/

theorem getD_replicate_zero (n j : ℕ) : (List.replicate n (0 : ℝ)).getD j 0 = 0 := by
  rcases lt_or_le j n with h | h
  · rw [List.getD_eq_getElem?_getD, List.getElem?_replicate]
    simp [h]
  · rw [List.getD_eq_default]
    rwa [List.length_replicate]

theorem getD_getD_zero (ll : List (List ℝ))
    (h : ∀ x ∈ ll, ∀ j, x.getD j 0 = 0) (i j : ℕ) :
    (ll.getD i []).getD j 0 = 0 := by
  rcases lt_or_le i ll.length with hi | hi
  · rw [List.getD_eq_getElem ll [] hi]
    exact h _ (List.getElem_mem hi) j
  · rw [List.getD_eq_default ll [] hi]
    rfl

theorem getD3_zero (t : List (List (List ℝ)))
    (h : ∀ x ∈ t, ∀ y ∈ x, ∀ k, y.getD k 0 = 0) (i j k : ℕ) :
    ((t.getD i []).getD j []).getD k 0 = 0 := by
  rcases lt_or_le i t.length with hi | hi
  · rw [List.getD_eq_getElem t [] hi]
    exact getD_getD_zero _ (h _ (List.getElem_mem hi)) j k
  · rw [List.getD_eq_default t [] hi]
    rfl

/-! ### Structure of the forward pass -/

theorem forwardLayers_lengths :
    ∀ (trips : List (List (List ℝ) × List ℝ × LayerConfig)) (cur : List ℝ),
      (forwardLayers cur trips).1.length = trips.length ∧
        (forwardLayers cur trips).2.1.length = trips.length
  | [], _ => ⟨rfl, rfl⟩
  | (w, b, cfg) :: rest, cur => by
    have ih := forwardLayers_lengths rest
      (((List.range cfg.neurons).map (fun j => neuronZ (b.getD j 0) cur w j)).map
        (applyActivation cfg.activation))
    simp only [forwardLayers, List.length_cons]
    exact ⟨by rw [ih.1], by rw [ih.2]⟩

theorem forwardLayers_final :
    ∀ (trips : List (List (List ℝ) × List ℝ × LayerConfig)) (cur : List ℝ),
      (forwardLayers cur trips).2.2 =
        (cur :: (forwardLayers cur trips).2.1).getLastD []
  | [], cur => by simp [forwardLayers]
  | (w, b, cfg) :: rest, cur => by
    have ih := forwardLayers_final rest
      (((List.range cfg.neurons).map (fun j => neuronZ (b.getD j 0) cur w j)).map
        (applyActivation cfg.activation))
    simp only [forwardLayers]
    rw [ih]
    simp only [List.getLastD_cons]

theorem forwardLayers_getD :
    ∀ (trips : List (List (List ℝ) × List ℝ × LayerConfig)) (cur : List ℝ) (i : ℕ),
      i < trips.length →
      ((forwardLayers cur trips).1.getD i [] =
        (List.range ((trips.getD i ([], [], default)).2.2).neurons).map (fun j =>
          neuronZ (((trips.getD i ([], [], default)).2.1).getD j 0)
            ((cur :: (forwardLayers cur trips).2.1).getD i [])
            ((trips.getD i ([], [], default)).1) j)) ∧
      ((forwardLayers cur trips).2.1.getD i [] =
        ((forwardLayers cur trips).1.getD i []).map
          (applyActivation ((trips.getD i ([], [], default)).2.2).activation))
  | [], cur, i, hi => by simp at hi
  | (w, b, cfg) :: rest, cur, 0, hi => by
    simp [forwardLayers]
  | (w, b, cfg) :: rest, cur, i + 1, hi => by
    have ih := forwardLayers_getD rest
      (((List.range cfg.neurons).map (fun j => neuronZ (b.getD j 0) cur w j)).map
        (applyActivation cfg.activation)) i (by simpa using hi)
    simp only [forwardLayers, List.getD_cons_succ]
    exact ih

/-- The per-step data of `forward`'s loop on a well-shaped engine:
entry `i` of the zip is `(weights[i], biases[i], layers[i+1])`. -/
theorem trips_getD (net : Net) (i : ℕ)
    (hlw : net.weights.length + 1 = net.layers.length)
    (hlb : net.biases.length = net.weights.length)
    (hi : i < net.weights.length) :
    (zip3 net.weights net.biases (net.layers.drop 1)).getD i ([], [], default) =
      (net.weights.getD i [], net.biases.getD i [], net.layers.getD (i + 1) default) := by
  rw [zip3_getD [] [] default net.weights net.biases (net.layers.drop 1) i hi
    (by omega) (by simp [List.length_drop]; omega)]
  rw [getD_drop]
  rw [List.getD_eq_getElem?_getD, Nat.add_comm]

/-- Length of `forward`'s zipped loop data on a well-shaped engine. -/
theorem trips_length (net : Net)
    (hlw : net.weights.length + 1 = net.layers.length)
    (hlb : net.biases.length = net.weights.length) :
    (zip3 net.weights net.biases (net.layers.drop 1)).length = net.weights.length := by
  rw [zip3_length net.weights net.biases (net.layers.drop 1) (by omega)
    (by simp [List.length_drop]; omega)]

/-! ### Structure of a train call -/

theorem train_eq (net : Net) (ins tg : List ℝ) :
    net.train ins tg =
      if net.batchSize ≤ net.currentBatchCount + 1 then
        (({ (net.forward ins).1 with
            neuronGradients := trainNG net ins tg
            weightGradients := trainWG net ins tg
            accWeightGradients := trainAccW net ins tg
            accBiasGradients := trainAccB net ins tg
            currentBatchCount := net.currentBatchCount + 1
            weights := updW net ins tg
            biases := updB net ins tg }).resetAccumulators,
          (net.forward ins).2)
      else
        ({ (net.forward ins).1 with
            neuronGradients := trainNG net ins tg
            weightGradients := trainWG net ins tg
            accWeightGradients := trainAccW net ins tg
            accBiasGradients := trainAccB net ins tg
            currentBatchCount := net.currentBatchCount + 1 },
          (net.forward ins).2) := rfl

theorem deltaAt_base (ws : List (List (List ℝ))) (cfgs : List LayerConfig)
    (zss ass : List (List ℝ)) (dOut : List ℝ) (L i : ℕ) (h : L ≤ i) :
    deltaAt ws cfgs zss ass dOut L i = dOut := by
  rw [deltaAt]
  exact dif_pos h

theorem deltaAt_step (ws : List (List (List ℝ))) (cfgs : List LayerConfig)
    (zss ass : List (List ℝ)) (dOut : List ℝ) (L i : ℕ) (h : ¬L ≤ i) :
    deltaAt ws cfgs zss ass dOut L i =
      (List.range (cfgs.getD i default).neurons).map (fun j =>
        ((List.range (cfgs.getD (i + 1) default).neurons).foldl
          (fun s k => s + (deltaAt ws cfgs zss ass dOut L (i + 1)).getD k 0 *
            ((ws.getD i []).getD j []).getD k 0) 0) *
        activationPrime (cfgs.getD i default).activation
          ((zss.getD i []).getD j 0) ((ass.getD i []).getD j 0)) := by
  rw [deltaAt]
  exact dif_neg h

theorem train_snd (net : Net) (ins tg : List ℝ) :
    (net.train ins tg).2 = (net.forward ins).2 := by
  rw [train_eq]
  split <;> rfl

theorem train_batchSize (net : Net) (ins tg : List ℝ) :
    (net.train ins tg).1.batchSize = net.batchSize := by
  rw [train_eq]
  split <;> rfl

theorem train_layers (net : Net) (ins tg : List ℝ) :
    (net.train ins tg).1.layers = net.layers := by
  rw [train_eq]
  split <;> rfl

theorem train_learningRate (net : Net) (ins tg : List ℝ) :
    (net.train ins tg).1.learningRate = net.learningRate := by
  rw [train_eq]
  split <;> rfl

theorem train_activations (net : Net) (ins tg : List ℝ) :
    (net.train ins tg).1.activations = (net.forward ins).1.activations := by
  rw [train_eq]
  split <;> rfl

theorem train_preActivations (net : Net) (ins tg : List ℝ) :
    (net.train ins tg).1.preActivations = (net.forward ins).1.preActivations := by
  rw [train_eq]
  split <;> rfl

theorem train_neuronGradients (net : Net) (ins tg : List ℝ) :
    (net.train ins tg).1.neuronGradients = trainNG net ins tg := by
  rw [train_eq]
  split <;> rfl

theorem train_weightGradients (net : Net) (ins tg : List ℝ) :
    (net.train ins tg).1.weightGradients = trainWG net ins tg := by
  rw [train_eq]
  split <;> rfl

theorem train_counter (net : Net) (ins tg : List ℝ) :
    (net.train ins tg).1.currentBatchCount =
      if net.batchSize ≤ net.currentBatchCount + 1 then 0
      else net.currentBatchCount + 1 := by
  rw [train_eq]
  split <;> rfl

theorem train_weights_of_lt (net : Net) (ins tg : List ℝ)
    (h : net.currentBatchCount + 1 < net.batchSize) :
    (net.train ins tg).1.weights = net.weights := by
  rw [train_eq, if_neg (by omega)]
  rfl

theorem train_biases_of_lt (net : Net) (ins tg : List ℝ)
    (h : net.currentBatchCount + 1 < net.batchSize) :
    (net.train ins tg).1.biases = net.biases := by
  rw [train_eq, if_neg (by omega)]
  rfl

theorem train_accW_of_lt (net : Net) (ins tg : List ℝ)
    (h : net.currentBatchCount + 1 < net.batchSize) :
    (net.train ins tg).1.accWeightGradients = trainAccW net ins tg := by
  rw [train_eq, if_neg (by omega)]

theorem train_accB_of_lt (net : Net) (ins tg : List ℝ)
    (h : net.currentBatchCount + 1 < net.batchSize) :
    (net.train ins tg).1.accBiasGradients = trainAccB net ins tg := by
  rw [train_eq, if_neg (by omega)]

theorem train_weights_of_ge (net : Net) (ins tg : List ℝ)
    (h : net.batchSize ≤ net.currentBatchCount + 1) :
    (net.train ins tg).1.weights = updW net ins tg := by
  rw [train_eq, if_pos h]
  rfl

theorem train_biases_of_ge (net : Net) (ins tg : List ℝ)
    (h : net.batchSize ≤ net.currentBatchCount + 1) :
    (net.train ins tg).1.biases = updB net ins tg := by
  rw [train_eq, if_pos h]
  rfl

theorem train_accW_of_ge (net : Net) (ins tg : List ℝ)
    (h : net.batchSize ≤ net.currentBatchCount + 1) :
    (net.train ins tg).1.accWeightGradients = zeroWeightShape (updW net ins tg) := by
  rw [train_eq, if_pos h]
  rfl

theorem train_accB_of_ge (net : Net) (ins tg : List ℝ)
    (h : net.batchSize ≤ net.currentBatchCount + 1) :
    (net.train ins tg).1.accBiasGradients = zeroBiasShape (updB net ins tg) := by
  rw [train_eq, if_pos h]
  rfl

theorem updW_getD (net : Net) (ins tg : List ℝ) (i j k : ℕ)
    (hi : i < net.weights.length) (hj : j < (net.weights.getD i []).length)
    (hk : k < ((net.weights.getD i []).getD j []).length) :
    (((updW net ins tg).getD i []).getD j []).getD k 0 =
      ((net.weights.getD i []).getD j []).getD k 0 -
        net.learningRate * ((((trainAccW net ins tg).getD i []).getD j []).getD k 0 *
          (1 / (net.batchSize : ℝ))) := by
  rw [updW, getD_range_map _ _ i [] hi, getD_range_map _ _ j [] hj,
    getD_range_map _ _ k 0 hk]

theorem updB_getD (net : Net) (ins tg : List ℝ) (i k : ℕ)
    (hi : i < net.weights.length) (hk : k < (net.biases.getD i []).length) :
    ((updB net ins tg).getD i []).getD k 0 =
      (net.biases.getD i []).getD k 0 -
        net.learningRate * (((trainAccB net ins tg).getD i []).getD k 0 *
          (1 / (net.batchSize : ℝ))) := by
  rw [updB, getD_range_map _ _ i [] hi, getD_range_map _ _ k 0 hk]

theorem trainAccW_getD (net : Net) (ins tg : List ℝ) (i j k : ℕ)
    (hi : i < net.weights.length) (hj : j < (net.weights.getD i []).length)
    (hk : k < ((net.weights.getD i []).getD j []).length) :
    (((trainAccW net ins tg).getD i []).getD j []).getD k 0 =
      ((net.accWeightGradients.getD i []).getD j []).getD k 0 +
        (((trainWG net ins tg).getD i []).getD j []).getD k 0 := by
  simp only [trainAccW, trainWG,
    show (net.forward ins).1.weights = net.weights from rfl,
    show (net.forward ins).1.accWeightGradients = net.accWeightGradients from rfl]
  rw [getD_range_map _ _ i [] hi, getD_range_map _ _ j [] hj,
    getD_range_map _ _ k 0 hk, getD_range_map _ _ i [] hi,
    getD_range_map _ _ j [] hj, getD_range_map _ _ k 0 hk]

theorem trainAccB_getD (net : Net) (ins tg : List ℝ) (i k : ℕ)
    (hi : i < net.weights.length) (hk : k < (net.biases.getD i []).length) :
    ((trainAccB net ins tg).getD i []).getD k 0 =
      (net.accBiasGradients.getD i []).getD k 0 +
        (trainDelta net ins tg (i + 1)).getD k 0 := by
  simp only [trainAccB,
    show (net.forward ins).1.weights = net.weights from rfl,
    show (net.forward ins).1.biases = net.biases from rfl,
    show (net.forward ins).1.accBiasGradients = net.accBiasGradients from rfl]
  rw [getD_range_map _ _ i [] hi, getD_range_map _ _ k 0 hk]

theorem trainNG_getD_succ (net : Net) (ins tg : List ℝ) (i : ℕ)
    (hi : i + 1 < net.layers.length) :
    (trainNG net ins tg).getD (i + 1) [] = trainDelta net ins tg (i + 1) := by
  simp only [trainNG,
    show (net.forward ins).1.layers = net.layers from rfl]
  rw [getD_range_map _ _ (i + 1) [] hi]
  simp

theorem zeroWeightShape_getD (ws : List (List (List ℝ))) (i j k : ℕ) :
    (((zeroWeightShape ws).getD i []).getD j []).getD k 0 = 0 := by
  refine getD3_zero _ ?_ i j k
  intro x hx y hy k'
  rcases List.mem_map.1 hx with ⟨l, _, hl⟩
  rw [← hl] at hy
  rcases List.mem_map.1 hy with ⟨n, _, hn⟩
  rw [← hn]
  exact getD_replicate_zero _ _

theorem zeroBiasShape_getD (bs : List (List ℝ)) (i k : ℕ) :
    ((zeroBiasShape bs).getD i []).getD k 0 = 0 := by
  refine getD_getD_zero _ ?_ i k
  intro x hx j
  rcases List.mem_map.1 hx with ⟨l, _, hl⟩
  rw [← hl]
  exact getD_replicate_zero _ _

theorem trainMany_nil (net : Net) : net.trainMany [] = net := rfl

theorem trainMany_take_succ (net : Net) (samples : List (List ℝ × List ℝ)) (m : ℕ)
    (hm : m < samples.length) :
    net.trainMany (samples.take (m + 1)) =
      ((net.trainMany (samples.take m)).train (samples.getD m ([], [])).1
        (samples.getD m ([], [])).2).1 := by
  rw [List.take_succ, List.getElem?_eq_getElem hm]
  simp only [Option.toList_some]
  rw [Net.trainMany, List.foldl_append]
  rw [List.getD_eq_getElem _ _ hm]
  rfl

/-- Before the batch fills up, a run of `train` calls leaves the
parameters, topology and hyperparameters untouched and only advances
the counter. -/
theorem trainMany_prefix (net : Net) (samples : List (List ℝ × List ℝ))
    (hcnt : net.currentBatchCount = 0) :
    ∀ m, m ≤ samples.length → m < net.batchSize →
      (net.trainMany (samples.take m)).weights = net.weights ∧
      (net.trainMany (samples.take m)).biases = net.biases ∧
      (net.trainMany (samples.take m)).layers = net.layers ∧
      (net.trainMany (samples.take m)).batchSize = net.batchSize ∧
      (net.trainMany (samples.take m)).learningRate = net.learningRate ∧
      (net.trainMany (samples.take m)).currentBatchCount = m := by
  intro m
  induction m with
  | zero =>
    intro _ _
    rw [List.take_zero, trainMany_nil]
    exact ⟨rfl, rfl, rfl, rfl, rfl, hcnt⟩
  | succ m ih =>
    intro hm hB
    have ihm := ih (by omega) (by omega)
    rw [trainMany_take_succ net samples m (by omega)]
    have hlt : (net.trainMany (samples.take m)).currentBatchCount + 1 <
        (net.trainMany (samples.take m)).batchSize := by
      rw [ihm.2.2.2.2.2, ihm.2.2.2.1]
      omega
    refine ⟨?_, ?_, ?_, ?_, ?_, ?_⟩
    · rw [train_weights_of_lt _ _ _ hlt, ihm.1]
    · rw [train_biases_of_lt _ _ _ hlt, ihm.2.1]
    · rw [train_layers, ihm.2.2.1]
    · rw [train_batchSize, ihm.2.2.2.1]
    · rw [train_learningRate, ihm.2.2.2.2.1]
    · rw [train_counter, if_neg (by omega), ihm.2.2.2.2.2]

/-- While the batch accumulates, every accumulator entry is the sum of
the per-sample gradients recorded so far. -/
theorem trainMany_acc (net : Net) (samples : List (List ℝ × List ℝ))
    (hlw : net.weights.length + 1 = net.layers.length)
    (hcnt : net.currentBatchCount = 0)
    (haccW : net.accWeightGradients = zeroWeightShape net.weights)
    (haccB : net.accBiasGradients = zeroBiasShape net.biases) :
    ∀ m, m ≤ samples.length → m < net.batchSize →
      (∀ i j k, i < net.weights.length → j < (net.weights.getD i []).length →
        k < ((net.weights.getD i []).getD j []).length →
        ((((net.trainMany (samples.take m)).accWeightGradients.getD i []).getD j []).getD k
            0 =
          ∑ t ∈ Finset.range m,
            (((sampleWeightGrad net samples t).getD i []).getD j []).getD k 0)) ∧
      (∀ i k, i < net.weights.length → k < (net.biases.getD i []).length →
        (((net.trainMany (samples.take m)).accBiasGradients.getD i []).getD k 0 =
          ∑ t ∈ Finset.range m,
            ((sampleBiasGrad net samples t).getD i []).getD k 0)) := by
  intro m
  induction m with
  | zero =>
    intro _ _
    rw [List.take_zero, trainMany_nil]
    constructor
    · intro i j k _ _ _
      rw [haccW, zeroWeightShape_getD]
      simp
    · intro i k _ _
      rw [haccB, zeroBiasShape_getD]
      simp
  | succ m ih =>
    intro hm hB
    have ihm := ih (by omega) (by omega)
    have hpre := trainMany_prefix net samples hcnt m (by omega) (by omega)
    rw [trainMany_take_succ net samples m (by omega)]
    have hlt : (net.trainMany (samples.take m)).currentBatchCount + 1 <
        (net.trainMany (samples.take m)).batchSize := by
      rw [hpre.2.2.2.2.2, hpre.2.2.2.1]
      omega
    constructor
    · intro i j k hi hj hk
      rw [train_accW_of_lt _ _ _ hlt]
      rw [trainAccW_getD _ _ _ i j k (by rw [hpre.1]; exact hi)
        (by rw [hpre.1]; exact hj) (by rw [hpre.1]; exact hk)]
      rw [ihm.1 i j k hi hj hk]
      rw [Finset.sum_range_succ]
      congr 1
      rw [sampleWeightGrad, train_weightGradients]
    · intro i k hi hk
      rw [train_accB_of_lt _ _ _ hlt]
      rw [trainAccB_getD _ _ _ i k (by rw [hpre.1]; exact hi)
        (by rw [hpre.2.1]; exact hk)]
      rw [ihm.2 i k hi hk]
      rw [Finset.sum_range_succ]
      congr 1
      rw [sampleBiasGrad, train_neuronGradients]
      rw [getD_drop, Nat.add_comm 1 i]
      rw [trainNG_getD_succ _ _ _ i (by rw [hpre.2.2.1]; omega)]

/-- C3: starting from zero accumulators and a zero batch counter,
after exactly `B = batchSize` consecutive `train` calls every weight
has been decremented by `learningRate * (sum of its B per-sample
gradients) / B` (and every bias analogously), the accumulators and the
counter read zero immediately after the B-th call, and no parameter
changed during the first B-1 calls. -/
theorem batch_update (net : Net) (samples : List (List ℝ × List ℝ))
    (hlw : net.weights.length + 1 = net.layers.length)
    (hcnt : net.currentBatchCount = 0)
    (haccW : net.accWeightGradients = zeroWeightShape net.weights)
    (haccB : net.accBiasGradients = zeroBiasShape net.biases)
    (hB : 1 ≤ net.batchSize)
    (hlen : samples.length = net.batchSize) :
    (∀ i j k, i < net.weights.length → j < (net.weights.getD i []).length →
      k < ((net.weights.getD i []).getD j []).length →
      ((((net.trainMany samples).weights.getD i []).getD j []).getD k 0 =
        ((net.weights.getD i []).getD j []).getD k 0 -
          net.learningRate *
            ((∑ t ∈ Finset.range net.batchSize,
              (((sampleWeightGrad net samples t).getD i []).getD j []).getD k 0) /
              (net.batchSize : ℝ)))) ∧
    (∀ i k, i < net.weights.length → k < (net.biases.getD i []).length →
      (((net.trainMany samples).biases.getD i []).getD k 0 =
        (net.biases.getD i []).getD k 0 -
          net.learningRate *
            ((∑ t ∈ Finset.range net.batchSize,
              ((sampleBiasGrad net samples t).getD i []).getD k 0) /
              (net.batchSize : ℝ)))) ∧
    ((net.trainMany samples).accWeightGradients =
        zeroWeightShape (net.trainMany samples).weights ∧
      (net.trainMany samples).accBiasGradients =
        zeroBiasShape (net.trainMany samples).biases ∧
      (net.trainMany samples).currentBatchCount = 0) ∧
    (∀ m, m < net.batchSize →
      (net.trainMany (samples.take m)).weights = net.weights ∧
      (net.trainMany (samples.take m)).biases = net.biases) := by
  have hm : net.batchSize - 1 < samples.length := by omega
  have htake : samples.take (net.batchSize - 1 + 1) = samples := by
    rw [show net.batchSize - 1 + 1 = net.batchSize from by omega, ← hlen,
      List.take_length]
  have hsplit : net.trainMany samples =
      ((net.trainMany (samples.take (net.batchSize - 1))).train
        (samples.getD (net.batchSize - 1) ([], [])).1
        (samples.getD (net.batchSize - 1) ([], [])).2).1 := by
    conv_lhs => rw [← htake]
    rw [trainMany_take_succ net samples _ hm]
  have hpre := trainMany_prefix net samples hcnt (net.batchSize - 1) (by omega)
    (by omega)
  have hacc := trainMany_acc net samples hlw hcnt haccW haccB (net.batchSize - 1)
    (by omega) (by omega)
  have hge : (net.trainMany (samples.take (net.batchSize - 1))).batchSize ≤
      (net.trainMany (samples.take (net.batchSize - 1))).currentBatchCount + 1 := by
    rw [hpre.2.2.2.1, hpre.2.2.2.2.2]
    omega
  refine ⟨?_, ?_, ⟨?_, ?_, ?_⟩, ?_⟩
  · intro i j k hi hj hk
    rw [hsplit, train_weights_of_ge _ _ _ hge]
    rw [updW_getD _ _ _ i j k (by rw [hpre.1]; exact hi) (by rw [hpre.1]; exact hj)
      (by rw [hpre.1]; exact hk)]
    rw [trainAccW_getD _ _ _ i j k (by rw [hpre.1]; exact hi)
      (by rw [hpre.1]; exact hj) (by rw [hpre.1]; exact hk)]
    rw [hacc.1 i j k hi hj hk]
    rw [hpre.1, hpre.2.2.2.2.1, hpre.2.2.2.1]
    have hg : (((sampleWeightGrad net samples (net.batchSize - 1)).getD i []).getD j
          []).getD k 0 =
        (((trainWG (net.trainMany (samples.take (net.batchSize - 1)))
            (samples.getD (net.batchSize - 1) ([], [])).1
            (samples.getD (net.batchSize - 1) ([], [])).2).getD i []).getD j
          []).getD k 0 := by
      rw [sampleWeightGrad, train_weightGradients]
    have hsum := (Finset.sum_range_succ
      (fun t => (((sampleWeightGrad net samples t).getD i []).getD j []).getD k 0)
      (net.batchSize - 1)).symm
    rw [show net.batchSize - 1 + 1 = net.batchSize from by omega] at hsum
    rw [← hg, hsum, mul_one_div]
  · intro i k hi hk
    rw [hsplit, train_biases_of_ge _ _ _ hge]
    rw [updB_getD _ _ _ i k (by rw [hpre.1]; exact hi) (by rw [hpre.2.1]; exact hk)]
    rw [trainAccB_getD _ _ _ i k (by rw [hpre.1]; exact hi)
      (by rw [hpre.2.1]; exact hk)]
    rw [hacc.2 i k hi hk]
    rw [hpre.2.1, hpre.2.2.2.2.1, hpre.2.2.2.1]
    have hg : ((sampleBiasGrad net samples (net.batchSize - 1)).getD i []).getD k 0 =
        (trainDelta (net.trainMany (samples.take (net.batchSize - 1)))
          (samples.getD (net.batchSize - 1) ([], [])).1
          (samples.getD (net.batchSize - 1) ([], [])).2 (i + 1)).getD k 0 := by
      rw [sampleBiasGrad, train_neuronGradients, getD_drop, Nat.add_comm 1 i]
      rw [trainNG_getD_succ _ _ _ i (by rw [hpre.2.2.1]; omega)]
    have hsum := (Finset.sum_range_succ
      (fun t => ((sampleBiasGrad net samples t).getD i []).getD k 0)
      (net.batchSize - 1)).symm
    rw [show net.batchSize - 1 + 1 = net.batchSize from by omega] at hsum
    rw [← hg, hsum, mul_one_div]
  · rw [hsplit, train_accW_of_ge _ _ _ hge, train_weights_of_ge _ _ _ hge]
  · rw [hsplit, train_accB_of_ge _ _ _ hge, train_biases_of_ge _ _ _ hge]
  · rw [hsplit, train_counter, if_pos hge]
  · intro m hmB
    have h := trainMany_prefix net samples hcnt m (by omega) hmB
    exact ⟨h.1, h.2.1⟩

/-- Witness: C3 instantiated on `testNet` (batch size 1) with the
single sample `([1], [0])` — after the batch completes the counter
reads zero. -/
theorem batch_update_witness :
    (testNet.trainMany [([1], [0])]).currentBatchCount = 0 :=
  (batch_update testNet [([1], [0])] rfl rfl rfl rfl (by decide) rfl).2.2.1.2.2

/-- C4: after `k < B` train calls from a fresh batch, `updateConfig`
with a different batch size discards the partial batch: accumulators
and counter read zero, the new batch size and the new learning rate
are in effect, and no weight or bias was updated from those `k`
samples. -/
theorem updateConfig_discards (net : Net) (samples : List (List ℝ × List ℝ))
    (lr2 : ℝ) (B2 : ℕ)
    (hcnt : net.currentBatchCount = 0)
    (hk : samples.length < net.batchSize)
    (hB2 : B2 ≠ net.batchSize) :
    ((net.trainMany samples).updateConfig lr2 B2).accWeightGradients =
        zeroWeightShape ((net.trainMany samples).updateConfig lr2 B2).weights ∧
      ((net.trainMany samples).updateConfig lr2 B2).accBiasGradients =
        zeroBiasShape ((net.trainMany samples).updateConfig lr2 B2).biases ∧
      ((net.trainMany samples).updateConfig lr2 B2).currentBatchCount = 0 ∧
      ((net.trainMany samples).updateConfig lr2 B2).batchSize = B2 ∧
      ((net.trainMany samples).updateConfig lr2 B2).learningRate = lr2 ∧
      ((net.trainMany samples).updateConfig lr2 B2).weights = net.weights ∧
      ((net.trainMany samples).updateConfig lr2 B2).biases = net.biases := by
  have hp := trainMany_prefix net samples hcnt samples.length le_rfl hk
  rw [List.take_length] at hp
  have hne : (net.trainMany samples).batchSize ≠ B2 := by
    rw [hp.2.2.2.1]
    exact fun h => hB2 h.symm
  simp only [Net.updateConfig]
  rw [if_pos hne]
  exact ⟨rfl, rfl, rfl, rfl, rfl, hp.1, hp.2.1⟩

/-- Witness: C4 instantiated on `testNet2` (batch size 2), one train
call, then `updateConfig` to batch size 3 — the counter reads zero. -/
theorem updateConfig_discards_witness :
    ((testNet2.trainMany [([1], [0])]).updateConfig 0.2 3).currentBatchCount = 0 :=
  (updateConfig_discards testNet2 [([1], [0])] 0.2 3 rfl (by decide)
    (by decide)).2.2.1

/-- C5: the batch-counter invariant `0 ≤ batchCounter < batchSize`
(the lower bound is inherent to the ℕ embedding) holds after
construction with a positive batch size and is preserved by every
completed `forward`, `train` and `updateConfig` call (with a positive
requested batch size); `getVisualizationData` does not touch the
engine state at all, so it preserves the invariant trivially. -/
theorem counter_invariant :
    (∀ (layers : List LayerConfig) (lr : ℝ) (bs : ℕ)
        (rW : ℕ → ℕ → ℕ → ℝ) (rB : ℕ → ℕ → ℝ), 1 ≤ bs →
      (mkNet layers lr bs rW rB).currentBatchCount <
        (mkNet layers lr bs rW rB).batchSize) ∧
    (∀ (net : Net) (ins : List ℝ),
      net.currentBatchCount < net.batchSize →
      (net.forward ins).1.currentBatchCount < (net.forward ins).1.batchSize) ∧
    (∀ (net : Net) (ins tg : List ℝ),
      net.currentBatchCount < net.batchSize →
      (net.train ins tg).1.currentBatchCount < (net.train ins tg).1.batchSize) ∧
    (∀ (net : Net) (lr2 : ℝ) (bs2 : ℕ), 1 ≤ bs2 →
      net.currentBatchCount < net.batchSize →
      (net.updateConfig lr2 bs2).currentBatchCount <
        (net.updateConfig lr2 bs2).batchSize) := by
  refine ⟨?_, ?_, ?_, ?_⟩
  · intro layers lr bs rW rB hbs
    exact hbs
  · intro net ins h
    exact h
  · intro net ins tg h
    rw [train_counter, train_batchSize]
    split <;> omega
  · intro net lr2 bs2 hbs2 h
    simp only [Net.updateConfig]
    split
    · simpa using hbs2
    · simpa using h

/-- Witness: C5's constructor clause instantiated on the concrete
layer list and batch size of `testNet`. -/
theorem counter_invariant_witness :
    (mkNet [⟨1, ActivationType.RELU⟩, ⟨1, ActivationType.RELU⟩] 0.1 1
        (fun _ _ _ => 1) (fun _ _ => 0.5)).currentBatchCount <
      (mkNet [⟨1, ActivationType.RELU⟩, ⟨1, ActivationType.RELU⟩] 0.1 1
        (fun _ _ _ => 1) (fun _ _ => 0.5)).batchSize :=
  counter_invariant.1 [⟨1, ActivationType.RELU⟩, ⟨1, ActivationType.RELU⟩] 0.1 1
    (fun _ _ _ => 1) (fun _ _ => 0.5) (by decide)

/-- C2: in every `train` call the stored output-layer error term of
output neuron `i` is `(prediction_i - target_i) *
activationDerivative`, and every hidden layer's stored error term is
`(Σ_k δ_{next,k} * weight_{j→k}) * activationDerivative_j`; in both
places the derivative is evaluated on the activation value `a` for
Sigmoid (`a*(1-a)`) and Tanh (`1-a²`), and on the pre-activation `z`
for ReLU (`1` if `z>0` else `0`). -/
theorem train_deltas (net : Net) (ins tg : List ℝ)
    (hlw : net.weights.length + 1 = net.layers.length)
    (hL : 1 ≤ net.weights.length) :
    (∀ i, i < (net.train ins tg).2.length →
      (((net.layers.getD (net.layers.length - 1) default).activation =
          ActivationType.SIGMOID →
        ((net.train ins tg).1.neuronGradients.getD (net.layers.length - 1)
            []).getD i 0 =
          ((net.train ins tg).2.getD i 0 - tg.getD i 0) *
            ((net.train ins tg).2.getD i 0 * (1 - (net.train ins tg).2.getD i 0))) ∧
      ((net.layers.getD (net.layers.length - 1) default).activation =
          ActivationType.RELU →
        ((net.train ins tg).1.neuronGradients.getD (net.layers.length - 1)
            []).getD i 0 =
          ((net.train ins tg).2.getD i 0 - tg.getD i 0) *
            (if ((net.train ins tg).1.preActivations.getD (net.layers.length - 1)
                []).getD i 0 > 0 then 1 else 0)) ∧
      ((net.layers.getD (net.layers.length - 1) default).activation =
          ActivationType.TANH →
        ((net.train ins tg).1.neuronGradients.getD (net.layers.length - 1)
            []).getD i 0 =
          ((net.train ins tg).2.getD i 0 - tg.getD i 0) *
            (1 - (net.train ins tg).2.getD i 0 * (net.train ins tg).2.getD i 0)))) ∧
    (∀ i, 1 ≤ i → i < net.weights.length →
      ∀ j, j < (net.layers.getD i default).neurons →
        (((net.layers.getD i default).activation = ActivationType.SIGMOID →
          ((net.train ins tg).1.neuronGradients.getD i []).getD j 0 =
            (∑ k ∈ Finset.range (net.layers.getD (i + 1) default).neurons,
              ((net.train ins tg).1.neuronGradients.getD (i + 1) []).getD k 0 *
                ((net.weights.getD i []).getD j []).getD k 0) *
            (((net.train ins tg).1.activations.getD i []).getD j 0 *
              (1 - ((net.train ins tg).1.activations.getD i []).getD j 0))) ∧
        ((net.layers.getD i default).activation = ActivationType.RELU →
          ((net.train ins tg).1.neuronGradients.getD i []).getD j 0 =
            (∑ k ∈ Finset.range (net.layers.getD (i + 1) default).neurons,
              ((net.train ins tg).1.neuronGradients.getD (i + 1) []).getD k 0 *
                ((net.weights.getD i []).getD j []).getD k 0) *
            (if ((net.train ins tg).1.preActivations.getD i []).getD j 0 > 0
              then 1 else 0)) ∧
        ((net.layers.getD i default).activation = ActivationType.TANH →
          ((net.train ins tg).1.neuronGradients.getD i []).getD j 0 =
            (∑ k ∈ Finset.range (net.layers.getD (i + 1) default).neurons,
              ((net.train ins tg).1.neuronGradients.getD (i + 1) []).getD k 0 *
                ((net.weights.getD i []).getD j []).getD k 0) *
            (1 - ((net.train ins tg).1.activations.getD i []).getD j 0 *
              ((net.train ins tg).1.activations.getD i []).getD j 0)))) := by
  have hngd : ∀ i', 1 ≤ i' → i' < net.layers.length →
      (trainNG net ins tg).getD i' [] = trainDelta net ins tg i' := by
    intro i' h1 h2
    simp only [trainNG, show (net.forward ins).1.layers = net.layers from rfl]
    rw [getD_range_map _ _ i' [] h2, if_neg (by omega)]
  have htd : ∀ i', trainDelta net ins tg i' =
      deltaAt net.weights net.layers (net.forward ins).1.preActivations
        (net.forward ins).1.activations (trainDOut net ins tg)
        net.weights.length i' := fun _ => rfl
  constructor
  · intro i hi
    rw [train_snd] at hi
    have hkey : ((net.train ins tg).1.neuronGradients.getD (net.layers.length - 1)
          []).getD i 0 =
        ((net.forward ins).2.getD i 0 - tg.getD i 0) *
          activationPrime (net.layers.getD (net.layers.length - 1) default).activation
            (((net.forward ins).1.preActivations.getD (net.layers.length - 1)
              []).getD i 0)
            ((net.forward ins).2.getD i 0) := by
      rw [train_neuronGradients, hngd (net.layers.length - 1) (by omega) (by omega),
        htd, deltaAt_base _ _ _ _ _ _ _ (by omega)]
      simp only [trainDOut, show (net.forward ins).1.layers = net.layers from rfl]
      rw [getD_range_map _ _ i 0 hi]
    refine ⟨fun hact => ?_, fun hact => ?_, fun hact => ?_⟩
    · rw [train_snd, hkey, hact]
      simp [activationPrime, sigmoidDerivative]
    · rw [train_snd, train_preActivations, hkey, hact]
      simp [activationPrime, reluDerivative]
    · rw [train_snd, hkey, hact]
      simp [activationPrime, tanhDerivative]
  · intro i h1 h2 j hj
    have hδi : (net.train ins tg).1.neuronGradients.getD i [] =
        trainDelta net ins tg i := by
      rw [train_neuronGradients, hngd i h1 (by omega)]
    have hδsucc : (net.train ins tg).1.neuronGradients.getD (i + 1) [] =
        trainDelta net ins tg (i + 1) := by
      rw [train_neuronGradients, hngd (i + 1) (by omega) (by omega)]
    have hstep : trainDelta net ins tg i =
        (List.range (net.layers.getD i default).neurons).map (fun j =>
          ((List.range (net.layers.getD (i + 1) default).neurons).foldl
            (fun s k => s + (trainDelta net ins tg (i + 1)).getD k 0 *
              ((net.weights.getD i []).getD j []).getD k 0) 0) *
          activationPrime (net.layers.getD i default).activation
            (((net.forward ins).1.preActivations.getD i []).getD j 0)
            (((net.forward ins).1.activations.getD i []).getD j 0)) := by
      rw [htd, deltaAt_step _ _ _ _ _ _ _ (show ¬net.weights.length ≤ i from by omega),
        htd (i + 1)]
    refine ⟨fun hact => ?_, fun hact => ?_, fun hact => ?_⟩
    · rw [hδi, hstep, getD_range_map _ _ j 0 hj,
        foldl_range_add (fun k => (trainDelta net ins tg (i + 1)).getD k 0 *
          ((net.weights.getD i []).getD j []).getD k 0), zero_add,
        hδsucc, train_activations, hact]
      simp [activationPrime, sigmoidDerivative]
    · rw [hδi, hstep, getD_range_map _ _ j 0 hj,
        foldl_range_add (fun k => (trainDelta net ins tg (i + 1)).getD k 0 *
          ((net.weights.getD i []).getD j []).getD k 0), zero_add,
        hδsucc, train_preActivations, hact]
      simp [activationPrime, reluDerivative]
    · rw [hδi, hstep, getD_range_map _ _ j 0 hj,
        foldl_range_add (fun k => (trainDelta net ins tg (i + 1)).getD k 0 *
          ((net.weights.getD i []).getD j []).getD k 0), zero_add,
        hδsucc, train_activations, hact]
      simp [activationPrime, tanhDerivative]

/-- Witness: C2's output-layer clause instantiated on `testNet`
(single ReLU output neuron) with the sample `([1], [0])`. -/
theorem train_deltas_witness :
    ((testNet.train [1] [0]).1.neuronGradients.getD (testNet.layers.length - 1)
        []).getD 0 0 =
      ((testNet.train [1] [0]).2.getD 0 0 - ([(0 : ℝ)]).getD 0 0) *
        (if ((testNet.train [1] [0]).1.preActivations.getD
            (testNet.layers.length - 1) []).getD 0 0 > 0 then 1 else 0) :=
  ((train_deltas testNet [1] [0] rfl (by decide)).1 0
    (by rw [train_snd]; decide)).2.1 rfl

/-! ### Claim theorems: dataset generator and activation bounds -/

/-- C1: on a well-shaped engine, `forward(inputs)` stores z = a =
inputs for the input layer, stores a z-vector and an a-vector for every
layer (the new forward state, replacing the prior one), computes for
each non-input layer `i+1` and neuron `j` the pre-activation
`z_j = bias_j + Σ_k a_{i,k} * weight_{k→j}` and the activation
`a_j = activation(z_j)` with the layer's own activation function
(`sigmoid(z) = 1/(1+e^-z)`, `relu(z) = max(0,z)`, `tanh` standard), and
returns the final layer's activation vector. -/
theorem forward_spec (net : Net) (inputs : List ℝ)
    (hlw : net.weights.length + 1 = net.layers.length)
    (hlb : net.biases.length = net.weights.length)
    (_hin : inputs.length = (net.layers.getD 0 default).neurons) :
    ((net.forward inputs).1.activations.getD 0 [] = inputs ∧
      (net.forward inputs).1.preActivations.getD 0 [] = inputs) ∧
    ((net.forward inputs).1.activations.length = net.layers.length ∧
      (net.forward inputs).1.preActivations.length = net.layers.length) ∧
    (∀ i, i < net.weights.length →
      ∀ j, j < (net.layers.getD (i + 1) default).neurons →
        ((net.forward inputs).1.preActivations.getD (i + 1) []).getD j 0 =
            (net.biases.getD i []).getD j 0 +
              ∑ k ∈ Finset.range ((net.forward inputs).1.activations.getD i []).length,
                ((net.forward inputs).1.activations.getD i []).getD k 0 *
                  ((net.weights.getD i []).getD k []).getD j 0 ∧
          (((net.layers.getD (i + 1) default).activation = ActivationType.SIGMOID →
              ((net.forward inputs).1.activations.getD (i + 1) []).getD j 0 =
                1 / (1 + Real.exp
                  (-(((net.forward inputs).1.preActivations.getD (i + 1) []).getD j 0)))) ∧
            ((net.layers.getD (i + 1) default).activation = ActivationType.RELU →
              ((net.forward inputs).1.activations.getD (i + 1) []).getD j 0 =
                max 0 (((net.forward inputs).1.preActivations.getD (i + 1) []).getD j 0)) ∧
            ((net.layers.getD (i + 1) default).activation = ActivationType.TANH →
              ((net.forward inputs).1.activations.getD (i + 1) []).getD j 0 =
                Real.tanh (((net.forward inputs).1.preActivations.getD (i + 1) []).getD j 0)))) ∧
    (net.forward inputs).2 = (net.forward inputs).1.activations.getLastD [] := by
  have htl := trips_length net hlw hlb
  have hact : (net.forward inputs).1.activations =
      inputs :: (forwardLayers inputs (zip3 net.weights net.biases (net.layers.drop 1))).2.1 :=
    rfl
  have hpre : (net.forward inputs).1.preActivations =
      inputs :: (forwardLayers inputs (zip3 net.weights net.biases (net.layers.drop 1))).1 :=
    rfl
  have hout : (net.forward inputs).2 =
      (forwardLayers inputs (zip3 net.weights net.biases (net.layers.drop 1))).2.2 := rfl
  refine ⟨⟨by rw [hact]; rfl, by rw [hpre]; rfl⟩, ⟨?_, ?_⟩, ?_, ?_⟩
  · rw [hact]
    simp only [List.length_cons]
    rw [(forwardLayers_lengths _ _).2, htl]
    omega
  · rw [hpre]
    simp only [List.length_cons]
    rw [(forwardLayers_lengths _ _).1, htl]
    omega
  · intro i hi j hj
    have hfg := forwardLayers_getD (zip3 net.weights net.biases (net.layers.drop 1)) inputs i
      (by rw [htl]; exact hi)
    rw [trips_getD net i hlw hlb hi] at hfg
    have hlen_z :
        ((forwardLayers inputs (zip3 net.weights net.biases (net.layers.drop 1))).1.getD i
          []).length = (net.layers.getD (i + 1) default).neurons := by
      rw [hfg.1]
      simp
    constructor
    · rw [hpre, List.getD_cons_succ, hfg.1, getD_range_map _ _ j 0 hj]
      simp only [neuronZ]
      rw [foldl_range_add (fun k =>
        ((inputs :: (forwardLayers inputs
            (zip3 net.weights net.biases (net.layers.drop 1))).2.1).getD i []).getD k 0 *
          ((net.weights.getD i []).getD k []).getD j 0)]
      rw [hact]
    · refine ⟨fun hs => ?_, fun hr => ?_, fun ht => ?_⟩ <;>
        rw [hact, List.getD_cons_succ, hfg.2,
          getD_map (applyActivation _) _ j 0 0 (by rw [hlen_z]; exact hj),
          hpre, List.getD_cons_succ]
      · rw [hs]
        simp [applyActivation, sigmoid]
      · rw [hr]
        simp [applyActivation, relu]
      · rw [ht]
        simp [applyActivation, tanh]
  · rw [hout, hact, forwardLayers_final]

/-- Witness: C1 instantiated on the concrete `testNet` with input
`[2]` (the final conjunct: `forward` returns the last layer's stored
activation vector). -/
theorem forward_spec_witness :
    (testNet.forward [2]).2 = (testNet.forward [2]).1.activations.getLastD [] :=
  (forward_spec testNet [2] rfl rfl rfl).2.2.2

/-- C6: `generateData XOR 8` returns exactly the eight fixed
DataPoints `(0.1,0.1)→[0]`, `(0.9,0.1)→[1]`, `(0.1,0.9)→[1]`,
`(0.9,0.9)→[0]`, `(0.2,0.2)→[0]`, `(0.8,0.2)→[1]`, `(0.2,0.8)→[1]`,
`(0.8,0.8)→[0]`, in that order, for any source of randomness. -/
theorem generateData_xor_exact (rand : ℕ → ℝ) :
    generateData DatasetType.XOR 8 rand =
      [⟨[0.1, 0.1], [0]⟩, ⟨[0.9, 0.1], [1]⟩, ⟨[0.1, 0.9], [1]⟩, ⟨[0.9, 0.9], [0]⟩,
       ⟨[0.2, 0.2], [0]⟩, ⟨[0.8, 0.2], [1]⟩, ⟨[0.2, 0.8], [1]⟩, ⟨[0.8, 0.8], [0]⟩] :=
  rfl

/-- C7 counterexample: `generateData` does not honour the requested
count — asking the Circle generator for 16 points yields a list whose
length is not 16 (it is 8: the generator loops over a hard-coded 8). -/
theorem generateData_circle_count_ignored :
    (generateData DatasetType.CIRCLE 16 (fun _ => 0)).length ≠ 16 := by
  simp [generateData, circleData]

/-- C7 amended: for every requested count and every task kind,
`generateData` returns exactly 8 DataPoints — the `count` parameter
(defaulting to 8) is ignored by all three branches. -/
theorem generateData_length_eight (type : DatasetType) (count : ℕ) (rand : ℕ → ℝ) :
    (generateData type count rand).length = 8 := by
  cases type <;> simp [generateData, xorData, quadrantsData, circleData]

/-- C8 counterexample: an unrecognized selector does not fail fast —
at the JavaScript runtime level an unknown dataset selector silently
yields the Circle dataset, and an unknown activation kind silently
yields the activation value 0. -/
theorem unknownKind_not_failfast :
    generateDataRT "SPIRAL" 8 (fun _ => 0) = circleData ∧
      applyActivationRT "SOFTMAX" 7 = 0 := by
  constructor
  · simp [generateDataRT]
  · simp [applyActivationRT]

/-- C8 amended: rather than failing fast, the code silently coerces:
every selector string other than `"XOR"` and `"QUADRANTS"` produces
the Circle dataset, and every activation string other than
`"SIGMOID"`, `"RELU"`, `"TANH"` produces the activation value 0. -/
theorem unknownKind_fallback :
    (∀ (t : String) (c : ℕ) (r : ℕ → ℝ), t ≠ "XOR" → t ≠ "QUADRANTS" →
        generateDataRT t c r = circleData) ∧
      (∀ (t : String) (x : ℝ), t ≠ "SIGMOID" → t ≠ "RELU" → t ≠ "TANH" →
        applyActivationRT t x = 0) := by
  constructor
  · intro t c r h1 h2
    simp [generateDataRT, h1, h2]
  · intro t x h1 h2 h3
    simp [applyActivationRT, h1, h2, h3]

/-- Witness for the amended C8 at concrete unknown selectors. -/
theorem unknownKind_fallback_witness :
    generateDataRT "LINES" 3 (fun _ => 1) = circleData ∧
      applyActivationRT "IDENTITY" 2 = 0 :=
  ⟨unknownKind_fallback.1 "LINES" 3 (fun _ => 1) (by decide) (by decide),
   unknownKind_fallback.2 "IDENTITY" 2 (by decide) (by decide) (by decide)⟩

/-- C9: for every input, a Sigmoid-activated neuron's output lies
strictly in (0,1), a Tanh-activated neuron's output lies strictly in
(-1,1), and a ReLU-activated neuron's output is ≥ 0 (stated about the
activation dispatch applied by `forward` to each neuron's
pre-activation). -/
theorem applyActivation_bounds (x : ℝ) :
    (0 < applyActivation ActivationType.SIGMOID x ∧
        applyActivation ActivationType.SIGMOID x < 1) ∧
      (-1 < applyActivation ActivationType.TANH x ∧
        applyActivation ActivationType.TANH x < 1) ∧
      0 ≤ applyActivation ActivationType.RELU x := by
  refine ⟨⟨?_, ?_⟩, ⟨?_, ?_⟩, ?_⟩
  · simp only [applyActivation, sigmoid]
    have h := Real.exp_pos (-x)
    positivity
  · simp only [applyActivation, sigmoid]
    rw [div_lt_one (by positivity)]
    have h := Real.exp_pos (-x)
    linarith
  · simp only [applyActivation, tanh]
    have h := Real.sinh_lt_cosh (-x)
    rw [Real.sinh_neg, Real.cosh_neg] at h
    rw [Real.tanh_eq_sinh_div_cosh, lt_div_iff₀ (Real.cosh_pos x)]
    linarith
  · simp only [applyActivation, tanh]
    rw [Real.tanh_eq_sinh_div_cosh, div_lt_one (Real.cosh_pos x)]
    exact Real.sinh_lt_cosh x
  · simp only [applyActivation, relu]
    exact le_max_left 0 x

/-- Sum of the per-layer record counts of the snapshot's neuron loop. -/
theorem sum_range_ite (f : ℕ → ℕ) :
    ∀ (L i : ℕ), i < L →
      ((List.range L).map (fun a => if a = i then f a else 0)).sum = f i := by
  intro L
  induction L with
  | zero => intro i hi; omega
  | succ m ih =>
    intro i hi
    rw [List.range_succ, List.map_append, List.sum_append]
    rcases Nat.lt_or_ge i m with h | h
    · rw [ih i h]
      simp [show m ≠ i from by omega]
    · have him : i = m := by omega
      subst him
      have hz : ((List.range i).map (fun a => if a = i then f a else 0)).sum = 0 := by
        apply List.sum_eq_zero
        intro x hx
        rcases List.mem_map.1 hx with ⟨a, ha, hax⟩
        rw [List.mem_range] at ha
        rw [← hax, if_neg (by omega)]
      rw [hz]
      simp

/-- The snapshot's neuron list holds exactly `layers[i].neurons`
records with `layerIndex = i` — the recovery-by-filter performed by
the connection loop of `getVisualizationData` finds the full layer. -/
theorem visNeurons_filter_length (net : Net) (i : ℕ) (hi : i < net.layers.length) :
    ((visNeurons net).filter (fun n => n.layerIndex = i)).length =
      (net.layers.getD i default).neurons := by
  simp only [visNeurons]
  rw [List.filter_flatMap, List.length_flatMap]
  refine Eq.trans (congrArg List.sum (List.map_congr_left ?_))
    (sum_range_ite (fun a => (net.layers.getD a default).neurons)
      net.layers.length i hi)
  intro a ha
  simp only [Function.comp_apply]
  rw [List.filter_map, List.length_map]
  by_cases h : a = i
  · subst h
    simp [Function.comp_def]
  · simp [Function.comp_def, h]

theorem sum_range_getD_neurons (l : List LayerConfig) :
    ((List.range l.length).map (fun i => (l.getD i default).neurons)).sum =
      (l.map (fun c => c.neurons)).sum := by
  induction l with
  | nil => simp
  | cons a t ih =>
    rw [List.length_cons, List.range_succ_eq_map]
    simp only [List.map_cons, List.map_map, List.sum_cons]
    rw [show ((fun i => ((a :: t).getD i default).neurons) ∘ Nat.succ) =
      (fun i => (t.getD i default).neurons) from rfl]
    rw [ih]
    rfl

/-- C10: on a freshly constructed engine (no forward or train call
yet), the snapshot succeeds and contains one record per neuron —
`Σ layer.neurons` records in total — each reporting activation 0,
pre-activation 0 and gradient 0, with the bias reported as 0 for
input-layer neurons — and one record per connection —
`Σ layers[i].neurons * layers[i+1].neurons` records over the weight
layers — each carrying weight gradient 0. -/
theorem snapshot_fresh (layers : List LayerConfig) (lr : ℝ) (bs : ℕ)
    (rW : ℕ → ℕ → ℕ → ℝ) (rB : ℕ → ℕ → ℝ) :
    ((mkNet layers lr bs rW rB).getVisualizationData).1.length =
        (layers.map (fun c => c.neurons)).sum ∧
      ((mkNet layers lr bs rW rB).getVisualizationData).2.length =
        ((List.range (layers.length - 1)).map (fun i =>
          (layers.getD i default).neurons *
            (layers.getD (i + 1) default).neurons)).sum ∧
      (∀ n ∈ ((mkNet layers lr bs rW rB).getVisualizationData).1,
        n.activation = 0 ∧ n.preActivation = 0 ∧ n.gradient = 0 ∧
          (n.layerIndex = 0 → n.bias = 0)) ∧
      (∀ c ∈ ((mkNet layers lr bs rW rB).getVisualizationData).2, c.gradient = 0) := by
  have hA : (mkNet layers lr bs rW rB).activations = [] := rfl
  have hP : (mkNet layers lr bs rW rB).preActivations = [] := rfl
  have hL : (mkNet layers lr bs rW rB).layers = layers := rfl
  have hng : (mkNet layers lr bs rW rB).neuronGradients =
      List.replicate (layers.getD 0 default).neurons (0 : ℝ) ::
        (List.range (layers.length - 1)).map (fun i =>
          List.replicate ((layers.getD (i + 1) default).neurons) (0 : ℝ)) := rfl
  have hwg : (mkNet layers lr bs rW rB).weightGradients =
      (List.range (layers.length - 1)).map (fun i =>
        (List.range (layers.getD i default).neurons).map (fun _ =>
          List.replicate (layers.getD (i + 1) default).neurons (0 : ℝ))) := rfl
  have hngz : ∀ i j, (((mkNet layers lr bs rW rB).neuronGradients.getD i []).getD j 0) = 0 := by
    intro i j
    rw [hng]
    refine getD_getD_zero _ ?_ i j
    intro x hx j'
    rcases List.mem_cons.1 hx with hx | hx
    · rw [hx]
      exact getD_replicate_zero _ _
    · rcases List.mem_map.1 hx with ⟨m, _, hm⟩
      rw [← hm]
      exact getD_replicate_zero _ _
  have hwgz : ∀ i j k,
      ((((mkNet layers lr bs rW rB).weightGradients.getD i []).getD j []).getD k 0) = 0 := by
    intro i j k
    rw [hwg]
    refine getD3_zero _ ?_ i j k
    intro x hx y hy k'
    rcases List.mem_map.1 hx with ⟨m, _, hm⟩
    rw [← hm] at hy
    rcases List.mem_map.1 hy with ⟨m', _, hm'⟩
    rw [← hm']
    exact getD_replicate_zero _ _
  have hfst : ((mkNet layers lr bs rW rB).getVisualizationData).1 =
      visNeurons (mkNet layers lr bs rW rB) := rfl
  have hsnd : ((mkNet layers lr bs rW rB).getVisualizationData).2 =
      visConnections (mkNet layers lr bs rW rB)
        (visNeurons (mkNet layers lr bs rW rB)) := rfl
  have hwl : (mkNet layers lr bs rW rB).weights.length = layers.length - 1 := by
    rw [show (mkNet layers lr bs rW rB).weights =
      (List.range (layers.length - 1)).map (fun i =>
        (List.range (layers.getD i default).neurons).map (fun j =>
          (List.range (layers.getD (i + 1) default).neurons).map (fun k =>
            rW i j k * 2 - 1))) from rfl]
    rw [List.length_map, List.length_range]
  refine ⟨?_, ?_, ?_, ?_⟩
  · rw [hfst, visNeurons, List.length_flatMap, hL]
    rw [← sum_range_getD_neurons layers]
    congr 1
    refine List.map_congr_left ?_
    intro i _
    simp
  · rw [hsnd]
    simp only [visConnections]
    rw [List.length_flatMap, hwl]
    refine congrArg List.sum (List.map_congr_left ?_)
    intro a ha
    rw [List.mem_range] at ha
    simp only [Function.comp_apply]
    rw [List.length_flatMap]
    simp only [Function.comp_def, List.length_map, List.length_range]
    rw [List.map_const', List.length_range, List.sum_const_nat]
    rw [visNeurons_filter_length _ a (by rw [hL]; omega),
      visNeurons_filter_length _ (a + 1) (by rw [hL]; omega)]
    rw [hL]
  · intro n hn
    rw [hfst, visNeurons] at hn
    rcases List.mem_flatMap.1 hn with ⟨i, _, hni⟩
    rcases List.mem_map.1 hni with ⟨j, _, hj⟩
    subst hj
    refine ⟨?_, ?_, ?_, ?_⟩
    · simp [hA]
    · simp [hP]
    · by_cases hi : i < (mkNet layers lr bs rW rB).neuronGradients.length
      · simp only [hi, if_true]
        exact hngz i j
      · simp [hi]
    · intro h0
      simp only at h0
      simp [h0]
  · intro c hc
    rw [hsnd, visConnections] at hc
    rcases List.mem_flatMap.1 hc with ⟨i, _, hci⟩
    rcases List.mem_flatMap.1 hci with ⟨j, _, hcj⟩
    rcases List.mem_map.1 hcj with ⟨k, _, hk⟩
    subst hk
    by_cases hi : i < (mkNet layers lr bs rW rB).weightGradients.length
    · simp only [hi, if_true]
      exact hwgz i j k
    · simp [hi]

end VisNet
